import Mathlib

set_option maxHeartbeats 1000000

/-!
Shallow embedding of the CodeQuill snapshot action (src/index.ts).

The single source file implements a submit-then-poll confirmation engine:
input validation, one submission POST, then a bounded polling loop against
a status endpoint.  External collaborators are modelled as oracles:

* the JavaScript `Number(string)` builtin is a parameter `toNumber`;
* each HTTP round trip is an `HttpResp` supplied by a `World`
  (`data` models `parseJsonSafely` applied to the body text);
* time passes only at suspension points (network round trips and sleeps),
  matching the single-threaded cooperative model of the action: the
  `World` supplies the duration of each poll round trip, and sleeps last
  exactly `pollIntervalSeconds * 1000` milliseconds.

Observable behaviour is a trace of events (log lines, `setOutput` calls,
HTTP posts, sleeps) plus an outcome (`core.setFailed msg`, or a normal
return from the confirmed branch).  The polling loop is driven by fuel;
exhausted fuel yields outcome `none` together with the trace so far.
-/

namespace CodeQuill

/-- JavaScript numbers, as far as the action inspects them:
finite values (JSON numbers and parsed inputs), NaN and the infinities. -/
inductive JsNum where
  | finite (q : ℚ)
  | nan
  | inf
  | negInf
deriving DecidableEq, Repr

/-- Number.isFinite -/
def JsNum.isFinite : JsNum → Bool
  | .finite _ => true
  | _ => false

/-- the JavaScript comparison x < 1 (false on NaN) -/
def JsNum.ltOne : JsNum → Bool
  | .finite q => decide (q < 1)
  | .nan => false
  | .inf => false
  | .negInf => true

/-- the rational value of a finite JsNum (0 on the non-finite values,
which the validator has already excluded wherever this is used) -/
def JsNum.toQ : JsNum → ℚ
  | .finite q => q
  | _ => 0

/-- string interpolation of a JS number -/
def JsNum.display : JsNum → String
  | .finite q => toString q
  | .nan => "NaN"
  | .inf => "Infinity"
  | .negInf => "-Infinity"

/-- String.prototype.trim: strip leading and trailing whitespace
(spelled out on the character list so that it evaluates by kernel
reduction) -/
def jsTrim (s : String) : String :=
  ⟨((s.data.dropWhile Char.isWhitespace).reverse.dropWhile Char.isWhitespace).reverse⟩

/-- String.prototype.toLowerCase on the ASCII range the status strings
use -/
def jsToLower (s : String) : String :=
  ⟨s.data.map Char.toLower⟩

/-- The decoded JSON body shape `SnapshotResponse` from src/index.ts.
A field that is absent, or present with a value of the wrong type, is
`none`; in particular `confirmations` is `some` exactly when the JSON
field is present and numeric (JSON numbers are always finite). -/
structure SnapshotResponse where
  success : Option Bool := none
  status : Option String := none
  message : Option String := none
  error : Option String := none
  tx_hash : Option String := none
  tx_url : Option String := none
  confirmations : Option ℚ := none
  manifest_cid : Option String := none
  commit_hash : Option String := none
  merkle_root : Option String := none
deriving DecidableEq, Repr

/-- The result of `postJson`: HTTP status data, raw body text, and the
decoded body (`parseJsonSafely text`, so `none` when the body is empty
or not JSON). -/
structure HttpResp where
  ok : Bool
  status : Nat
  statusText : String
  text : String
  data : Option SnapshotResponse
deriving DecidableEq, Repr

/-- JavaScript truthiness of an optional string: undefined and the empty
string are falsy. -/
def strTruthy : Option String → Bool
  | none => false
  | some s => !(s == "")

/-- the JS expression x || the empty string, for an optional string x -/
def jsOrEmpty : Option String → String
  | none => ""
  | some s => s

/-- the JS expression a || b for optional strings (first truthy operand) -/
def jsOrOpt : Option String → Option String → Option String
  | some s, b => if s == "" then b else some s
  | none, b => b

/-- the JS expression a || b || c with c a plain string default -/
def jsOrDefault (a b : Option String) (c : String) : String :=
  match jsOrOpt a b with
  | some s => if s == "" then c else s
  | none => c

/-- url.replace with the pattern of one or more trailing slashes, from
`normalizeUrlNoTrailingSlash` in src/index.ts -/
def normalizeUrlNoTrailingSlash (url : String) : String :=
  ⟨(url.data.reverse.dropWhile (· == '/')).reverse⟩

/-- The raw action inputs as returned by the hosting environment
(absent inputs are returned as the empty string). -/
structure Inputs where
  apiUrl : String
  apiKey : String
  statusApiUrl : String
  confirmations : String
  pollIntervalSeconds : String
  maxWaitSeconds : String
  githubId : String
  branch : String
deriving DecidableEq, Repr

/-- The two environment variables the action reads. -/
structure Env where
  GITHUB_REPOSITORY_ID : Option String
  GITHUB_REF_NAME : Option String
deriving DecidableEq, Repr

/-- the pattern s && s.trim().length > 0 ? s.trim() : the empty string -/
def trimOrEmpty (s : String) : String :=
  if s ≠ "" ∧ 0 < (jsTrim s).length then jsTrim s else ""

/-- the githubIdStr value as computed in run: explicit input preferred over the
GITHUB_REPOSITORY_ID environment fallback, both trimmed-or-empty. -/
def githubIdStrOf (inp : Inputs) (env : Env) : String :=
  let fromInput := trimOrEmpty inp.githubId
  let fromEnv := match env.GITHUB_REPOSITORY_ID with
    | some s => trimOrEmpty s
    | none => ""
  if fromInput ≠ "" then fromInput else fromEnv

/-- the branch value as computed in run: the trimmed explicit input when truthy
and nonempty after trimming, else GITHUB_REF_NAME || the empty string
(note: the environment fallback is used verbatim, not trimmed). -/
def branchOf (inp : Inputs) (env : Env) : String :=
  if inp.branch ≠ "" ∧ 0 < (jsTrim inp.branch).length then jsTrim inp.branch
  else jsOrEmpty env.GITHUB_REF_NAME

/-- a numeric parameter: Number(raw.trim()) when the raw input is truthy
and nonempty after trimming, else the default -/
def numParam (toNumber : String → JsNum) (raw : String) (d : ℚ) : JsNum :=
  if raw ≠ "" ∧ 0 < (jsTrim raw).length then toNumber (jsTrim raw) else .finite d

/-- the validation test applied to each numeric parameter:
`Number.isFinite x` and not `x < 1` -/
def numOk (n : JsNum) : Bool :=
  n.isFinite && !n.ltOne

/-- The validated request descriptor produced by the input-parsing
prefix of run (lines 61-134 of src/index.ts). -/
structure SnapshotRequest where
  githubId : JsNum
  branch : String
  confirmations : ℚ
  pollIntervalSeconds : ℚ
  maxWaitSeconds : ℚ
  apiUrlNormalized : String
  statusApiUrl : String
  apiKey : String
deriving DecidableEq, Repr

def missingGithubIdMsg : String :=
  "Could not determine github-id. Pass the \"github-id\" input or ensure GITHUB_REPOSITORY_ID is set."

def invalidGithubIdMsg (s : String) : String :=
  "Invalid github-id: \"" ++ s ++ "\" is not a finite number."

def missingBranchMsg : String :=
  "Branch could not be determined. Pass inputs.branch or ensure GITHUB_REF_NAME is set."

def invalidConfirmationsMsg (raw : String) : String :=
  "Invalid confirmations: \"" ++ raw ++ "\". Must be a number >= 1."

def invalidPollIntervalMsg (raw : String) : String :=
  "Invalid poll-interval-seconds: \"" ++ raw ++ "\". Must be a number >= 1."

def invalidMaxWaitMsg (raw : String) : String :=
  "Invalid max-wait-seconds: \"" ++ raw ++ "\". Must be a number >= 1."

/-- The validation prefix of run as a pure builder: either the message
passed to `core.setFailed`, or the validated request.  Mirrors lines
61-134 of src/index.ts in order; the two required inputs throw inside
`getInput` when absent, which the surrounding try/catch turns into a
setFailed with the thrown message. -/
def buildRequest (toNumber : String → JsNum) (inp : Inputs) (env : Env) :
    Except String SnapshotRequest :=
  if inp.apiUrl = "" then .error "Input required and not supplied: api-url"
  else if inp.apiKey = "" then .error "Input required and not supplied: api-key"
  else
    let githubIdStr := githubIdStrOf inp env
    if githubIdStr = "" then .error missingGithubIdMsg
    else
      let githubId := toNumber githubIdStr
      if !githubId.isFinite then .error (invalidGithubIdMsg githubIdStr)
      else
        let branch := branchOf inp env
        if branch = "" then .error missingBranchMsg
        else
          let confirmations := numParam toNumber inp.confirmations 1
          if !(numOk confirmations) then .error (invalidConfirmationsMsg inp.confirmations)
          else
            let pollIntervalSeconds := numParam toNumber inp.pollIntervalSeconds 5
            if !(numOk pollIntervalSeconds) then .error (invalidPollIntervalMsg inp.pollIntervalSeconds)
            else
              let maxWaitSeconds := numParam toNumber inp.maxWaitSeconds 600
              if !(numOk maxWaitSeconds) then .error (invalidMaxWaitMsg inp.maxWaitSeconds)
              else
                let apiUrlNormalized := normalizeUrlNoTrailingSlash inp.apiUrl
                let statusApiUrl :=
                  if inp.statusApiUrl ≠ "" ∧ 0 < (jsTrim inp.statusApiUrl).length
                  then jsTrim inp.statusApiUrl
                  else apiUrlNormalized ++ "/status"
                .ok { githubId := githubId, branch := branch,
                      confirmations := confirmations.toQ,
                      pollIntervalSeconds := pollIntervalSeconds.toQ,
                      maxWaitSeconds := maxWaitSeconds.toQ,
                      apiUrlNormalized := apiUrlNormalized,
                      statusApiUrl := statusApiUrl,
                      apiKey := inp.apiKey }

/-- Observable events of one run: log lines, output assignments, HTTP
posts (tagged with their target URL) and sleeps (in milliseconds). -/
inductive Event where
  | info (msg : String)
  | setOutput (name value : String)
  | post (url : String)
  | sleepMs (ms : ℚ)
deriving DecidableEq, Repr

def Event.isPost : Event → Bool
  | .post _ => true
  | _ => false

/-- How a run ends: `core.setFailed msg`, or the normal return from the
confirmed branch carrying the confirmation count it computed
(`typeof confirmations === number` on the poll body). -/
inductive Outcome where
  | failed (msg : String)
  | confirmed (confs : Option ℚ)
deriving DecidableEq, Repr

/-- The environment of one run: the submission response, the response to
each poll attempt (0-indexed), and the duration in milliseconds of each
poll round trip (time advances only at suspension points). -/
structure World where
  submitResp : HttpResp
  pollResp : Nat → HttpResp
  pollDurMs : Nat → ℚ

/-- Math.floor of elapsed milliseconds divided by 1000 -/
def elapsedSecondsOf (tMs : ℚ) : Nat :=
  (Int.floor (tMs / 1000)).toNat

def triggerMsg (req : SnapshotRequest) : String :=
  "Triggering Code Quill snapshot for repo " ++ req.githubId.display ++
    " on branch \"" ++ req.branch ++ "\"..."

/-- detail of the submission-rejected message: submit.data and then its
error field, under JS truthiness -/
def submitDetail (r : HttpResp) : Option String :=
  match r.data with
  | none => none
  | some d => d.error

def submissionRejectedMsg (r : HttpResp) : String :=
  "Code Quill snapshot failed: HTTP " ++ toString r.status ++ " " ++ r.statusText ++
    (if strTruthy (submitDetail r) then " - " ++ jsOrEmpty (submitDetail r)
     else if r.text ≠ "" then " - " ++ r.text else "")

def emptyResponseMsg : String :=
  "Snapshot accepted but response body was empty or not JSON."

def acceptedMsg (d : SnapshotResponse) : String :=
  "Snapshot accepted by Code Quill: status=" ++ d.status.getD "n/a"

def noTxHashMsg : String :=
  "Snapshot response did not include tx_hash, cannot wait for confirmation."

def txSentMsg (tx : String) : String :=
  "Transaction sent: " ++ tx

def waitingMsg (req : SnapshotRequest) : String :=
  "Waiting for confirmation (" ++ toString req.confirmations ++ " confs, up to " ++
    toString req.maxWaitSeconds ++ "s)..."

def timeoutMsg (elapsed : Nat) (tx : String) (txUrl : Option String) : String :=
  "Timed out after " ++ toString elapsed ++ "s while waiting for confirmation. tx_hash=" ++ tx ++
    (if strTruthy txUrl then " (" ++ jsOrEmpty txUrl ++ ")" else "")

/-- detail of a non-2xx poll message: poll.data and then message || error -/
def pollDetail (r : HttpResp) : Option String :=
  match r.data with
  | none => none
  | some d => jsOrOpt d.message d.error

def pollHttpErrMsg (attempt : Nat) (r : HttpResp) : String :=
  "Status check attempt #" ++ toString attempt ++ " got HTTP " ++ toString r.status ++
    " " ++ r.statusText ++
    (if strTruthy (pollDetail r) then " - " ++ jsOrEmpty (pollDetail r)
     else if r.text ≠ "" then " - " ++ r.text else "")

def pollEmptyMsg (attempt : Nat) : String :=
  "Status check attempt #" ++ toString attempt ++ " returned non-JSON/empty body. Waiting..."

def confirmedMsg (confs : Option ℚ) : String :=
  "Transaction confirmed" ++
    (match confs with
     | some c => if c = 0 then "" else " (" ++ toString c ++ " confirmations)"
     | none => "") ++ "."

def txFailedMsg (d : SnapshotResponse) (tx : String) : String :=
  "Code Quill transaction failed: " ++
    jsOrDefault d.message d.error "Transaction failed on-chain." ++ " tx_hash=" ++ tx

def pendingMsg (elapsed attempt : Nat) (tx : String) : String :=
  "Still pending after " ++ toString elapsed ++ "s (attempt #" ++ toString attempt ++
    "). tx_hash=" ++ tx

/-- The confirmation-phase loop (lines 179-234 of src/index.ts), driven
by fuel.  `k` is the number of completed iterations (the next attempt is
numbered k+1), `tMs` the milliseconds elapsed since `startedAt`.  Each
iteration reads the clock, checks the deadline, polls, and either
terminates or sleeps and recurs; time advances by the poll round-trip
duration plus the sleep. -/
def pollLoop (req : SnapshotRequest) (txUrl : Option String) (txHash : String)
    (w : World) : Nat → Nat → ℚ → List Event × Option Outcome
  | 0, _, _ => ([], none)
  | fuel + 1, k, tMs =>
    let elapsed := elapsedSecondsOf tMs
    if (elapsed : ℚ) ≥ req.maxWaitSeconds then
      ([], some (.failed (timeoutMsg elapsed txHash txUrl)))
    else
      let attempt := k + 1
      let r := w.pollResp k
      let slMs := req.pollIntervalSeconds * 1000
      let rest := pollLoop req txUrl txHash w fuel (k + 1) (tMs + w.pollDurMs k + slMs)
      if !r.ok then
        (.post req.statusApiUrl :: .info (pollHttpErrMsg attempt r) :: .sleepMs slMs :: rest.1,
         rest.2)
      else
        match r.data with
        | none =>
          (.post req.statusApiUrl :: .info (pollEmptyMsg attempt) :: .sleepMs slMs :: rest.1,
           rest.2)
        | some pd =>
          let status := jsToLower (jsOrEmpty pd.status)
          if status = "confirmed" then
            ([.post req.statusApiUrl, .info (confirmedMsg pd.confirmations)],
             some (.confirmed pd.confirmations))
          else if status = "failed" then
            ([.post req.statusApiUrl], some (.failed (txFailedMsg pd txHash)))
          else
            (.post req.statusApiUrl :: .info (pendingMsg elapsed attempt txHash) ::
               .sleepMs slMs :: rest.1,
             rest.2)

/-- the three conditional setOutput calls after a structured success -/
def outputEvents (d : SnapshotResponse) : List Event :=
  (if strTruthy d.commit_hash then [Event.setOutput "commit-hash" (jsOrEmpty d.commit_hash)] else []) ++
  (if strTruthy d.manifest_cid then [Event.setOutput "manifest-cid" (jsOrEmpty d.manifest_cid)] else []) ++
  (if strTruthy d.merkle_root then [Event.setOutput "merkle-root" (jsOrEmpty d.merkle_root)] else [])

/-- the truthy check on the returned transaction hash: the truthy
transaction hash, if any -/
def txHashOf (d : SnapshotResponse) : Option String :=
  match d.tx_hash with
  | none => none
  | some s => if s = "" then none else some s

/-- The submission-and-confirmation engine (lines 136-234 of
src/index.ts), evaluated on an already validated request. -/
def engine (req : SnapshotRequest) (w : World) (fuel : Nat) :
    List Event × Option Outcome :=
  let ev0 : List Event := [.info (triggerMsg req), .post req.apiUrlNormalized]
  let submit := w.submitResp
  if !submit.ok then (ev0, some (.failed (submissionRejectedMsg submit)))
  else
    match submit.data with
    | none => (ev0, some (.failed emptyResponseMsg))
    | some d =>
      let ev1 := ev0 ++ [.info (acceptedMsg d)] ++ outputEvents d
      match txHashOf d with
      | none => (ev1, some (.failed noTxHashMsg))
      | some tx =>
        let ev2 := ev1 ++ [.setOutput "tx-hash" tx, .info (txSentMsg tx)] ++
          (if strTruthy d.tx_url then [Event.info ("Explorer: " ++ jsOrEmpty d.tx_url)] else []) ++
          [.info (waitingMsg req)]
        let lp := pollLoop req d.tx_url tx w fuel 0 0
        (ev2 ++ lp.1, lp.2)

/-- The whole action run: validation then engine.  A validation failure
is a `setFailed` with an empty event trace (no network call is made). -/
def run (toNumber : String → JsNum) (inp : Inputs) (env : Env) (w : World)
    (fuel : Nat) : List Event × Option Outcome :=
  match buildRequest toNumber inp env with
  | .error msg => ([], some (.failed msg))
  | .ok req => engine req w fuel

/-- A small stand-in for the Number() builtin, used to instantiate the
oracle in concrete witnesses: nonnegative decimal digit strings parse,
everything else is NaN. -/
def toNumberDigits (s : String) : JsNum :=
  if s.data ≠ [] ∧ s.data.all Char.isDigit then
    .finite (s.data.foldl (fun a c => a * 10 + (c.toNat - 48)) 0 : Nat)
  else .nan

/-- substring containment, used to state which correlation data a
message carries -/
def containsStr (s sub : String) : Prop :=
  List.IsInfix sub.data s.data

instance (s sub : String) : Decidable (containsStr s sub) :=
  List.decidableInfix sub.data s.data

/-! Helper lemmas shared by the claim theorems. -/

theorem containsStr_intro (pre post : String) {s sub : String}
    (h : s = pre ++ sub ++ post) : containsStr s sub := by
  subst h
  show List.IsInfix sub.data (pre ++ sub ++ post).data
  simp only [String.data_append]
  exact List.infix_append _ _ _

theorem containsStr_empty (s : String) : containsStr s "" := by
  show List.IsInfix [] s.data
  exact List.nil_infix

theorem string_length_zero {s : String} (h : s.length = 0) : s = "" := by
  cases s with
  | mk l =>
    cases l with
    | nil => rfl
    | cons c t => simp [String.length] at h

theorem numOk_iff (n : JsNum) : numOk n = true ↔ ∃ q : ℚ, n = .finite q ∧ 1 ≤ q := by
  cases n with
  | finite q =>
    simp only [numOk, JsNum.isFinite, JsNum.ltOne, Bool.true_and, Bool.not_eq_true]
    constructor
    · intro h
      exact ⟨q, rfl, le_of_not_lt (by simpa using h)⟩
    · rintro ⟨q', hq', h1⟩
      cases hq'
      simpa using not_lt.mpr h1
  | nan => simp [numOk, JsNum.isFinite]
  | inf => simp [numOk, JsNum.isFinite]
  | negInf => simp [numOk, JsNum.isFinite]

theorem numOk_one_le_toQ {n : JsNum} (h : numOk n = true) : 1 ≤ n.toQ := by
  rcases (numOk_iff n).mp h with ⟨q, rfl, h1⟩
  simpa [JsNum.toQ] using h1

/-- Inversion of a successful build: the fields of the produced request
in terms of the inputs, plus the facts that every validation test
passed. -/
theorem buildRequest_ok_inv (toNumber : String → JsNum) (inp : Inputs) (env : Env)
    (req : SnapshotRequest) (h : buildRequest toNumber inp env = .ok req) :
    req.githubId = toNumber (githubIdStrOf inp env) ∧
    req.branch = branchOf inp env ∧
    numOk (numParam toNumber inp.confirmations 1) = true ∧
    numOk (numParam toNumber inp.pollIntervalSeconds 5) = true ∧
    numOk (numParam toNumber inp.maxWaitSeconds 600) = true ∧
    req.confirmations = (numParam toNumber inp.confirmations 1).toQ ∧
    req.pollIntervalSeconds = (numParam toNumber inp.pollIntervalSeconds 5).toQ ∧
    req.maxWaitSeconds = (numParam toNumber inp.maxWaitSeconds 600).toQ ∧
    req.apiUrlNormalized = normalizeUrlNoTrailingSlash inp.apiUrl ∧
    ((inp.statusApiUrl ≠ "" ∧ 0 < (jsTrim inp.statusApiUrl).length) →
      req.statusApiUrl = jsTrim inp.statusApiUrl) ∧
    (¬(inp.statusApiUrl ≠ "" ∧ 0 < (jsTrim inp.statusApiUrl).length) →
      req.statusApiUrl = normalizeUrlNoTrailingSlash inp.apiUrl ++ "/status") ∧
    req.apiKey = inp.apiKey := by
  unfold buildRequest at h
  simp only [] at h
  repeat' split at h
  all_goals try exact Except.noConfusion h
  all_goals injection h with h
  all_goals subst h
  all_goals refine ⟨rfl, rfl, ?_, ?_, ?_, rfl, rfl, rfl, rfl, ?_, ?_, rfl⟩
  all_goals simp_all

theorem run_of_build_ok (toNumber : String → JsNum) (inp : Inputs) (env : Env)
    (req : SnapshotRequest) (w : World) (fuel : Nat)
    (h : buildRequest toNumber inp env = .ok req) :
    run toNumber inp env w fuel = engine req w fuel := by
  simp [run, h]

theorem run_of_build_error (toNumber : String → JsNum) (inp : Inputs) (env : Env)
    (w : World) (fuel : Nat) (msg : String)
    (h : buildRequest toNumber inp env = .error msg) :
    run toNumber inp env w fuel = ([], some (.failed msg)) := by
  simp [run, h]

/-- Whatever the responses are, the engine first logs the trigger line
and then posts the submission to the normalized endpoint URL. -/
theorem engine_head_events (req : SnapshotRequest) (w : World) (fuel : Nat) :
    ∃ rest out, engine req w fuel =
      (Event.info (triggerMsg req) :: Event.post req.apiUrlNormalized :: rest, out) := by
  unfold engine
  simp only []
  cases hok : w.submitResp.ok
  · exact ⟨_, _, rfl⟩
  · cases hd : w.submitResp.data with
    | none => exact ⟨_, _, rfl⟩
    | some d =>
      cases ht : txHashOf d with
      | none =>
        refine ⟨[Event.info (acceptedMsg d)] ++ outputEvents d,
          some (.failed noTxHashMsg), ?_⟩
        simp [ht]
      | some tx =>
        refine ⟨[Event.info (acceptedMsg d)] ++ outputEvents d ++
          ([Event.setOutput "tx-hash" tx, Event.info (txSentMsg tx)] ++
            (if strTruthy d.tx_url then [Event.info ("Explorer: " ++ jsOrEmpty d.tx_url)] else []) ++
            [Event.info (waitingMsg req)]) ++ (pollLoop req d.tx_url tx w fuel 0 0).1,
          (pollLoop req d.tx_url tx w fuel 0 0).2, ?_⟩
        simp [ht, List.append_assoc]

/-! Concrete fixtures used by witnesses and counterexamples. -/

/-- a well-formed input assignment whose endpoint URL carries a trailing
slash -/
def inpCex : Inputs :=
  { apiUrl := "http://api/", apiKey := "k", statusApiUrl := "",
    confirmations := "", pollIntervalSeconds := "", maxWaitSeconds := "",
    githubId := "7", branch := "main" }

def envNone : Env := ⟨none, none⟩

/-- the request that `buildRequest` produces from `inpCex` -/
def reqCex : SnapshotRequest :=
  { githubId := .finite 7, branch := "main", confirmations := 1,
    pollIntervalSeconds := 5, maxWaitSeconds := 600,
    apiUrlNormalized := "http://api", statusApiUrl := "http://api/status",
    apiKey := "k" }

/-- an HTTP 422 rejection with a structured error field -/
def rejectResp : HttpResp :=
  { ok := false, status := 422, statusText := "Unprocessable Entity",
    text := "\x7b\"error\":\"Missing github_id\"\x7d",
    data := some { error := some "Missing github_id" } }

def rejectWorld : World :=
  { submitResp := rejectResp, pollResp := fun _ => rejectResp, pollDurMs := fun _ => 0 }

theorem buildRequest_inpCex : buildRequest toNumberDigits inpCex envNone = .ok reqCex := by
  rfl

/-- C5 (amended): the submission POST is sent to the endpoint URL with
trailing slashes stripped — the same normalized URL from which the
default status URL is derived by appending the status suffix. -/
theorem claim_C5_submission_uses_normalized_url (toNumber : String → JsNum)
    (inp : Inputs) (env : Env) (req : SnapshotRequest)
    (h : buildRequest toNumber inp env = .ok req) :
    req.apiUrlNormalized = normalizeUrlNoTrailingSlash inp.apiUrl ∧
    ((jsTrim inp.statusApiUrl).length = 0 →
      req.statusApiUrl = normalizeUrlNoTrailingSlash inp.apiUrl ++ "/status") ∧
    ∀ (w : World) (fuel : Nat), ∃ rest out,
      run toNumber inp env w fuel =
        (Event.info (triggerMsg req) :: Event.post (normalizeUrlNoTrailingSlash inp.apiUrl) :: rest, out) := by
  obtain ⟨-, -, -, -, -, -, -, -, hnorm, -, hstat2, -⟩ :=
    buildRequest_ok_inv toNumber inp env req h
  refine ⟨hnorm, ?_, ?_⟩
  · intro hlen
    apply hstat2
    rintro ⟨hne, hpos⟩
    omega
  · intro w fuel
    rw [run_of_build_ok toNumber inp env req w fuel h, ← hnorm]
    exact engine_head_events req w fuel

/-- C5 counterexample: with endpoint input containing a trailing slash,
the submission POST goes to the stripped URL, not to the caller-supplied
URL verbatim. -/
theorem claim_C5_counterexample :
    inpCex.apiUrl = "http://api/" ∧
    (run toNumberDigits inpCex envNone rejectWorld 1).1 =
      [Event.info (triggerMsg reqCex), Event.post "http://api"] ∧
    Event.post "http://api/" ∉ (run toNumberDigits inpCex envNone rejectWorld 1).1 := by
  refine ⟨rfl, by decide, by decide⟩

/-- C5 witness: the general theorem applied to the concrete fixture. -/
theorem claim_C5_witness :
    reqCex.apiUrlNormalized = normalizeUrlNoTrailingSlash inpCex.apiUrl ∧
    ((jsTrim inpCex.statusApiUrl).length = 0 →
      reqCex.statusApiUrl = normalizeUrlNoTrailingSlash inpCex.apiUrl ++ "/status") ∧
    ∀ (w : World) (fuel : Nat), ∃ rest out,
      run toNumberDigits inpCex envNone w fuel =
        (Event.info (triggerMsg reqCex) :: Event.post (normalizeUrlNoTrailingSlash inpCex.apiUrl) :: rest, out) :=
  claim_C5_submission_uses_normalized_url toNumberDigits inpCex envNone reqCex
    buildRequest_inpCex

theorem string_pos_of_ne {s : String} (h : s ≠ "") : 0 < s.length := by
  by_contra hc
  exact h (string_length_zero (Nat.eq_zero_of_not_pos hc))

theorem string_ne_of_pos {s : String} (h : 0 < s.length) : s ≠ "" := by
  intro he
  subst he
  exact absurd h (by decide)

theorem ne_of_head (s t : String) (h : s.data.head? ≠ t.data.head?) : s ≠ t :=
  fun he => h (he ▸ rfl)

theorem invalidConfirmationsMsg_ne_missingBranchMsg (raw : String) :
    invalidConfirmationsMsg raw ≠ missingBranchMsg := by
  intro h
  have h1 : (invalidConfirmationsMsg raw).data.head? = some 'I' := rfl
  rw [h] at h1
  exact absurd h1 (by decide)

theorem invalidPollIntervalMsg_ne_missingBranchMsg (raw : String) :
    invalidPollIntervalMsg raw ≠ missingBranchMsg := by
  intro h
  have h1 : (invalidPollIntervalMsg raw).data.head? = some 'I' := rfl
  rw [h] at h1
  exact absurd h1 (by decide)

theorem invalidMaxWaitMsg_ne_missingBranchMsg (raw : String) :
    invalidMaxWaitMsg raw ≠ missingBranchMsg := by
  intro h
  have h1 : (invalidMaxWaitMsg raw).data.head? = some 'I' := rfl
  rw [h] at h1
  exact absurd h1 (by decide)

theorem buildRequest_of_branch_empty (toNumber : String → JsNum) (inp : Inputs) (env : Env)
    (hA : inp.apiUrl ≠ "") (hK : inp.apiKey ≠ "")
    (hG : githubIdStrOf inp env ≠ "")
    (hGf : (toNumber (githubIdStrOf inp env)).isFinite = true)
    (hB : branchOf inp env = "") :
    buildRequest toNumber inp env = .error missingBranchMsg := by
  simp [buildRequest, hA, hK, hG, hGf, hB]

/-- C8 (amended): the branch is the trimmed explicit input when that is
nonempty after trimming, otherwise the GITHUB_REF_NAME fallback taken
verbatim; the builder fails with the missing-branch error exactly when
the explicit input is empty after trimming and the fallback string is
empty or unset — a whitespace-only fallback is accepted untrimmed. -/
theorem claim_C8_branch_selection (toNumber : String → JsNum) (inp : Inputs) (env : Env)
    (hA : inp.apiUrl ≠ "") (hK : inp.apiKey ≠ "")
    (hG : githubIdStrOf inp env ≠ "")
    (hGf : (toNumber (githubIdStrOf inp env)).isFinite = true) :
    (jsTrim inp.branch ≠ "" → branchOf inp env = jsTrim inp.branch) ∧
    (jsTrim inp.branch = "" → branchOf inp env = jsOrEmpty env.GITHUB_REF_NAME) ∧
    (buildRequest toNumber inp env = .error missingBranchMsg ↔
      jsTrim inp.branch = "" ∧ jsOrEmpty env.GITHUB_REF_NAME = "") := by
  have htrim : jsTrim inp.branch = "" → branchOf inp env = jsOrEmpty env.GITHUB_REF_NAME := by
    intro hb
    unfold branchOf
    rw [if_neg]
    rintro ⟨-, hpos⟩
    rw [hb] at hpos
    exact absurd hpos (by decide)
  have hsel : jsTrim inp.branch ≠ "" → branchOf inp env = jsTrim inp.branch := by
    intro hb
    unfold branchOf
    rw [if_pos]
    refine ⟨?_, string_pos_of_ne hb⟩
    intro he
    rw [he] at hb
    exact hb rfl
  refine ⟨hsel, htrim, ?_, ?_⟩
  · intro h
    have hbr : branchOf inp env = "" := by
      by_contra hBne
      cases hc : numOk (numParam toNumber inp.confirmations 1) with
      | false =>
        rw [show buildRequest toNumber inp env = .error (invalidConfirmationsMsg inp.confirmations) by
          simp [buildRequest, hA, hK, hG, hGf, hBne, hc]] at h
        exact invalidConfirmationsMsg_ne_missingBranchMsg inp.confirmations (by injection h)
      | true =>
        cases hp : numOk (numParam toNumber inp.pollIntervalSeconds 5) with
        | false =>
          rw [show buildRequest toNumber inp env = .error (invalidPollIntervalMsg inp.pollIntervalSeconds) by
            simp [buildRequest, hA, hK, hG, hGf, hBne, hc, hp]] at h
          exact invalidPollIntervalMsg_ne_missingBranchMsg inp.pollIntervalSeconds (by injection h)
        | true =>
          cases hm : numOk (numParam toNumber inp.maxWaitSeconds 600) with
          | false =>
            rw [show buildRequest toNumber inp env = .error (invalidMaxWaitMsg inp.maxWaitSeconds) by
              simp [buildRequest, hA, hK, hG, hGf, hBne, hc, hp, hm]] at h
            exact invalidMaxWaitMsg_ne_missingBranchMsg inp.maxWaitSeconds (by injection h)
          | true =>
            have hok : buildRequest toNumber inp env =
                .ok { githubId := toNumber (githubIdStrOf inp env), branch := branchOf inp env,
                      confirmations := (numParam toNumber inp.confirmations 1).toQ,
                      pollIntervalSeconds := (numParam toNumber inp.pollIntervalSeconds 5).toQ,
                      maxWaitSeconds := (numParam toNumber inp.maxWaitSeconds 600).toQ,
                      apiUrlNormalized := normalizeUrlNoTrailingSlash inp.apiUrl,
                      statusApiUrl :=
                        if inp.statusApiUrl ≠ "" ∧ 0 < (jsTrim inp.statusApiUrl).length
                        then jsTrim inp.statusApiUrl
                        else normalizeUrlNoTrailingSlash inp.apiUrl ++ "/status",
                      apiKey := inp.apiKey } := by
              simp [buildRequest, hA, hK, hG, hGf, hBne, hc, hp, hm]
            rw [hok] at h
            exact Except.noConfusion h
    constructor
    · by_cases hb : jsTrim inp.branch = ""
      · exact hb
      · rw [hsel hb] at hbr
        exact absurd hbr hb
    · by_cases hb : jsTrim inp.branch = ""
      · rw [htrim hb] at hbr
        exact hbr
      · rw [hsel hb] at hbr
        exact absurd hbr hb
  · rintro ⟨h1, h2⟩
    apply buildRequest_of_branch_empty toNumber inp env hA hK hG hGf
    rw [htrim h1, h2]

/-- inputs with no explicit branch, paired with a whitespace-only
GITHUB_REF_NAME fallback -/
def inpC8 : Inputs :=
  { apiUrl := "http://api", apiKey := "k", statusApiUrl := "",
    confirmations := "", pollIntervalSeconds := "", maxWaitSeconds := "",
    githubId := "7", branch := "" }

def envC8 : Env := ⟨none, some " "⟩

/-- the request built from `inpC8`/`envC8`: the run proceeds with the
untrimmed whitespace branch instead of failing -/
def reqC8 : SnapshotRequest :=
  { githubId := .finite 7, branch := " ", confirmations := 1,
    pollIntervalSeconds := 5, maxWaitSeconds := 600,
    apiUrlNormalized := "http://api", statusApiUrl := "http://api/status",
    apiKey := "k" }

/-- C8 counterexample: both the explicit branch input and the
environment fallback are empty after trimming, yet the builder does not
fail with the missing-branch error — it accepts the whitespace fallback
verbatim. -/
theorem claim_C8_counterexample :
    jsTrim inpC8.branch = "" ∧ jsTrim (jsOrEmpty envC8.GITHUB_REF_NAME) = "" ∧
    buildRequest toNumberDigits inpC8 envC8 = .ok reqC8 ∧ reqC8.branch = " " :=
  ⟨rfl, rfl, rfl, rfl⟩

/-- C8 witness: the amended branch-selection theorem at a concrete
input assignment. -/
theorem claim_C8_witness :
    (jsTrim inpCex.branch ≠ "" → branchOf inpCex envNone = jsTrim inpCex.branch) ∧
    (jsTrim inpCex.branch = "" → branchOf inpCex envNone = jsOrEmpty envNone.GITHUB_REF_NAME) ∧
    (buildRequest toNumberDigits inpCex envNone = .error missingBranchMsg ↔
      jsTrim inpCex.branch = "" ∧ jsOrEmpty envNone.GITHUB_REF_NAME = "") :=
  claim_C8_branch_selection toNumberDigits inpCex envNone (by decide) (by decide)
    (by decide) (by decide)

/-! C6: pass-through outputs. -/

theorem engine_no_tx (req : SnapshotRequest) (w : World) (fuel : Nat)
    (d : SnapshotResponse) (hok : w.submitResp.ok = true)
    (hd : w.submitResp.data = some d) (ht : txHashOf d = none) :
    engine req w fuel =
      ([Event.info (triggerMsg req), Event.post req.apiUrlNormalized,
        Event.info (acceptedMsg d)] ++ outputEvents d,
       some (.failed noTxHashMsg)) := by
  unfold engine
  simp [hok, hd, ht]

theorem engine_with_tx (req : SnapshotRequest) (w : World) (fuel : Nat)
    (d : SnapshotResponse) (tx : String) (hok : w.submitResp.ok = true)
    (hd : w.submitResp.data = some d) (ht : txHashOf d = some tx) :
    engine req w fuel =
      ([Event.info (triggerMsg req), Event.post req.apiUrlNormalized,
        Event.info (acceptedMsg d)] ++ outputEvents d ++
        ([Event.setOutput "tx-hash" tx, Event.info (txSentMsg tx)] ++
          (if strTruthy d.tx_url then [Event.info ("Explorer: " ++ jsOrEmpty d.tx_url)] else []) ++
          [Event.info (waitingMsg req)]) ++ (pollLoop req d.tx_url tx w fuel 0 0).1,
       (pollLoop req d.tx_url tx w fuel 0 0).2) := by
  unfold engine
  simp [hok, hd, ht, List.append_assoc]

theorem mem_outputEvents_commit (d : SnapshotResponse) (v : String)
    (hv : d.commit_hash = some v) (hne : v ≠ "") :
    Event.setOutput "commit-hash" v ∈ outputEvents d := by
  unfold outputEvents
  have h : strTruthy (some v) = true := by simp [strTruthy, hne]
  simp [hv, h, jsOrEmpty]

theorem mem_outputEvents_manifest (d : SnapshotResponse) (v : String)
    (hv : d.manifest_cid = some v) (hne : v ≠ "") :
    Event.setOutput "manifest-cid" v ∈ outputEvents d := by
  unfold outputEvents
  have h : strTruthy (some v) = true := by simp [strTruthy, hne]
  simp [hv, h, jsOrEmpty]

theorem mem_outputEvents_merkle (d : SnapshotResponse) (v : String)
    (hv : d.merkle_root = some v) (hne : v ≠ "") :
    Event.setOutput "merkle-root" v ∈ outputEvents d := by
  unfold outputEvents
  have h : strTruthy (some v) = true := by simp [strTruthy, hne]
  simp [hv, h, jsOrEmpty]

theorem outputEvents_no_post (d : SnapshotResponse) :
    (outputEvents d).filter Event.isPost = [] := by
  unfold outputEvents
  split_ifs <;> simp [Event.isPost]

/-- C6 (amended): on a structured success response, each of the
commit_hash, manifest_cid and merkle_root fields that is present with a
non-empty value is set as an output immediately, and those outputs are
in the trace whatever the rest of the run does; when the response lacks
a truthy transaction identifier, the run fails with the
no-transaction-id message with those outputs still set and with the
submission POST as the only network call. -/
theorem claim_C6_outputs_passthrough (toNumber : String → JsNum) (inp : Inputs)
    (env : Env) (req : SnapshotRequest) (w : World) (fuel : Nat)
    (d : SnapshotResponse) (hb : buildRequest toNumber inp env = .ok req)
    (hok : w.submitResp.ok = true) (hd : w.submitResp.data = some d) :
    (∀ v, d.commit_hash = some v → v ≠ "" →
      Event.setOutput "commit-hash" v ∈ (run toNumber inp env w fuel).1) ∧
    (∀ v, d.manifest_cid = some v → v ≠ "" →
      Event.setOutput "manifest-cid" v ∈ (run toNumber inp env w fuel).1) ∧
    (∀ v, d.merkle_root = some v → v ≠ "" →
      Event.setOutput "merkle-root" v ∈ (run toNumber inp env w fuel).1) ∧
    (txHashOf d = none →
      run toNumber inp env w fuel =
        ([Event.info (triggerMsg req), Event.post req.apiUrlNormalized,
          Event.info (acceptedMsg d)] ++ outputEvents d,
         some (.failed noTxHashMsg)) ∧
      ((run toNumber inp env w fuel).1.filter Event.isPost) =
        [Event.post req.apiUrlNormalized]) := by
  rw [run_of_build_ok toNumber inp env req w fuel hb]
  have hmem : ∀ e, e ∈ outputEvents d → e ∈ (engine req w fuel).1 := by
    intro e he
    cases ht : txHashOf d with
    | none =>
      rw [engine_no_tx req w fuel d hok hd ht]
      simp [List.mem_append, he]
    | some tx =>
      rw [engine_with_tx req w fuel d tx hok hd ht]
      simp [List.mem_append, he]
  refine ⟨?_, ?_, ?_, ?_⟩
  · intro v hv hne
    exact hmem _ (mem_outputEvents_commit d v hv hne)
  · intro v hv hne
    exact hmem _ (mem_outputEvents_manifest d v hv hne)
  · intro v hv hne
    exact hmem _ (mem_outputEvents_merkle d v hv hne)
  · intro ht
    have he := engine_no_tx req w fuel d hok hd ht
    refine ⟨he, ?_⟩
    rw [he]
    simp [List.filter_append, outputEvents_no_post, Event.isPost]

/-- a structured success response whose commit_hash is present but
empty, and whose tx_hash is present -/
def d6 : SnapshotResponse := { commit_hash := some "", tx_hash := some "0xabc" }

def okWorld6 : World :=
  { submitResp :=
      { ok := true, status := 200, statusText := "OK",
        text := "\x7b\"tx_hash\":\"0xabc\",\"commit_hash\":\"\"\x7d", data := some d6 },
    pollResp := fun _ => rejectResp, pollDurMs := fun _ => 0 }

/-- C6 counterexample: the commit_hash field is present (as the empty
string) on a structured success response, yet no commit-hash output is
ever set — the code tests truthiness, not presence — while the run did
get past submission (the tx-hash output is set). -/
theorem claim_C6_counterexample :
    okWorld6.submitResp.ok = true ∧ okWorld6.submitResp.data = some d6 ∧
    d6.commit_hash = some "" ∧
    ((run toNumberDigits inpCex envNone okWorld6 0).1.filter
      (fun e => match e with
        | Event.setOutput n _ => n == "commit-hash"
        | _ => false)) = [] ∧
    Event.setOutput "tx-hash" "0xabc" ∈ (run toNumberDigits inpCex envNone okWorld6 0).1 := by
  refine ⟨rfl, rfl, rfl, by decide, by decide⟩

/-- a structured success response with truthy pass-through fields and no
transaction hash -/
def d6b : SnapshotResponse :=
  { commit_hash := some "deadbeef", manifest_cid := some "cid1",
    merkle_root := some "root1" }

def okWorld6b : World :=
  { submitResp :=
      { ok := true, status := 200, statusText := "OK",
        text := "\x7b\"commit_hash\":\"deadbeef\"\x7d", data := some d6b },
    pollResp := fun _ => rejectResp, pollDurMs := fun _ => 0 }

/-- C6 witness: the amended theorem at a concrete world with truthy
outputs and a missing transaction hash. -/
theorem claim_C6_witness :
    (∀ v, d6b.commit_hash = some v → v ≠ "" →
      Event.setOutput "commit-hash" v ∈ (run toNumberDigits inpCex envNone okWorld6b 1).1) ∧
    (∀ v, d6b.manifest_cid = some v → v ≠ "" →
      Event.setOutput "manifest-cid" v ∈ (run toNumberDigits inpCex envNone okWorld6b 1).1) ∧
    (∀ v, d6b.merkle_root = some v → v ≠ "" →
      Event.setOutput "merkle-root" v ∈ (run toNumberDigits inpCex envNone okWorld6b 1).1) ∧
    (txHashOf d6b = none →
      run toNumberDigits inpCex envNone okWorld6b 1 =
        ([Event.info (triggerMsg reqCex), Event.post reqCex.apiUrlNormalized,
          Event.info (acceptedMsg d6b)] ++ outputEvents d6b,
         some (.failed noTxHashMsg)) ∧
      ((run toNumberDigits inpCex envNone okWorld6b 1).1.filter Event.isPost) =
        [Event.post reqCex.apiUrlNormalized]) :=
  claim_C6_outputs_passthrough toNumberDigits inpCex envNone reqCex okWorld6b 1 d6b
    buildRequest_inpCex rfl rfl

/-! C4: rejected submission. -/

theorem engine_submit_fail (req : SnapshotRequest) (w : World) (fuel : Nat)
    (hok : w.submitResp.ok = false) :
    engine req w fuel =
      ([Event.info (triggerMsg req), Event.post req.apiUrlNormalized],
       some (.failed (submissionRejectedMsg w.submitResp))) := by
  unfold engine
  simp [hok]

theorem submissionRejectedMsg_contains_status (r : HttpResp) :
    containsStr (submissionRejectedMsg r) (toString r.status) := by
  apply containsStr_intro "Code Quill snapshot failed: HTTP "
    (" " ++ r.statusText ++
      (if strTruthy (submitDetail r) then " - " ++ jsOrEmpty (submitDetail r)
       else if r.text ≠ "" then " - " ++ r.text else ""))
  simp [submissionRejectedMsg, String.append_assoc]

theorem submissionRejectedMsg_contains_statusText (r : HttpResp) :
    containsStr (submissionRejectedMsg r) r.statusText := by
  apply containsStr_intro ("Code Quill snapshot failed: HTTP " ++ toString r.status ++ " ")
    (if strTruthy (submitDetail r) then " - " ++ jsOrEmpty (submitDetail r)
     else if r.text ≠ "" then " - " ++ r.text else "")
  simp [submissionRejectedMsg, String.append_assoc]

theorem submissionRejectedMsg_contains_error (r : HttpResp) (d : SnapshotResponse)
    (e : String) (hd : r.data = some d) (he : d.error = some e) :
    containsStr (submissionRejectedMsg r) e := by
  by_cases hne : e = ""
  · rw [hne]
    exact containsStr_empty _
  · have hdet : submitDetail r = some e := by simp [submitDetail, hd, he]
    have hs : strTruthy (some e) = true := by simp [strTruthy, hne]
    apply containsStr_intro
      ("Code Quill snapshot failed: HTTP " ++ toString r.status ++ " " ++ r.statusText ++ " - ") ""
    simp [submissionRejectedMsg, hs, hdet, jsOrEmpty, String.append_assoc, String.append_empty]

theorem submissionRejectedMsg_contains_text (r : HttpResp)
    (hdet : strTruthy (submitDetail r) = false) :
    containsStr (submissionRejectedMsg r) r.text := by
  by_cases ht : r.text = ""
  · rw [ht]
    exact containsStr_empty _
  · apply containsStr_intro
      ("Code Quill snapshot failed: HTTP " ++ toString r.status ++ " " ++ r.statusText ++ " - ") ""
    simp [submissionRejectedMsg, hdet, ht, String.append_assoc, String.append_empty]

/-- C4: a non-success HTTP status on the submission call fails the run
with a message carrying the status code, the status text, and the
structured error field when present (else the raw body text), and the
submission POST is the only network call of the run — no status poll is
ever attempted. -/
theorem claim_C4_submission_rejected (toNumber : String → JsNum) (inp : Inputs)
    (env : Env) (req : SnapshotRequest) (w : World) (fuel : Nat)
    (hb : buildRequest toNumber inp env = .ok req)
    (hok : w.submitResp.ok = false) :
    run toNumber inp env w fuel =
      ([Event.info (triggerMsg req), Event.post req.apiUrlNormalized],
       some (.failed (submissionRejectedMsg w.submitResp))) ∧
    containsStr (submissionRejectedMsg w.submitResp) (toString w.submitResp.status) ∧
    containsStr (submissionRejectedMsg w.submitResp) w.submitResp.statusText ∧
    (∀ d e, w.submitResp.data = some d → d.error = some e →
      containsStr (submissionRejectedMsg w.submitResp) e) ∧
    ((w.submitResp.data = none ∨ ∃ d, w.submitResp.data = some d ∧ d.error = none) →
      containsStr (submissionRejectedMsg w.submitResp) w.submitResp.text) ∧
    ((run toNumber inp env w fuel).1.filter Event.isPost) =
      [Event.post req.apiUrlNormalized] := by
  have he := engine_submit_fail req w fuel hok
  rw [run_of_build_ok toNumber inp env req w fuel hb]
  refine ⟨he, submissionRejectedMsg_contains_status _,
    submissionRejectedMsg_contains_statusText _, ?_, ?_, ?_⟩
  · intro d e hd herr
    exact submissionRejectedMsg_contains_error _ d e hd herr
  · intro hcase
    apply submissionRejectedMsg_contains_text
    rcases hcase with hnone | ⟨d, hd, herr⟩
    · simp [submitDetail, hnone, strTruthy]
    · simp [submitDetail, hd, herr, strTruthy]
  · rw [he]
    simp [Event.isPost]

/-- C4 witness: the claim at the concrete HTTP 422 response with the
structured error field that the specification uses as its example. -/
theorem claim_C4_witness :
    run toNumberDigits inpCex envNone rejectWorld 1 =
      ([Event.info (triggerMsg reqCex), Event.post reqCex.apiUrlNormalized],
       some (.failed (submissionRejectedMsg rejectResp))) ∧
    containsStr (submissionRejectedMsg rejectResp) (toString rejectResp.status) ∧
    containsStr (submissionRejectedMsg rejectResp) rejectResp.statusText ∧
    (∀ d e, rejectResp.data = some d → d.error = some e →
      containsStr (submissionRejectedMsg rejectResp) e) ∧
    ((rejectResp.data = none ∨ ∃ d, rejectResp.data = some d ∧ d.error = none) →
      containsStr (submissionRejectedMsg rejectResp) rejectResp.text) ∧
    ((run toNumberDigits inpCex envNone rejectWorld 1).1.filter Event.isPost) =
      [Event.post reqCex.apiUrlNormalized] :=
  claim_C4_submission_rejected toNumberDigits inpCex envNone reqCex rejectWorld 1
    buildRequest_inpCex rfl

/-! C9: optional numeric parameters. -/

theorem numParam_blank (toNumber : String → JsNum) (raw : String) (dq : ℚ)
    (hb : jsTrim raw = "") : numParam toNumber raw dq = .finite dq := by
  unfold numParam
  rw [if_neg]
  rintro ⟨-, hpos⟩
  rw [hb] at hpos
  exact absurd hpos (by decide)

theorem invalidConfirmationsMsg_names (raw : String) :
    containsStr (invalidConfirmationsMsg raw) "confirmations" := by
  apply containsStr_intro "Invalid " (": \"" ++ raw ++ "\". Must be a number >= 1.")
  rw [invalidConfirmationsMsg,
    show ("Invalid confirmations: \"" : String) = "Invalid " ++ ("confirmations" ++ ": \"") by decide]
  simp only [String.append_assoc]

theorem invalidPollIntervalMsg_names (raw : String) :
    containsStr (invalidPollIntervalMsg raw) "poll-interval-seconds" := by
  apply containsStr_intro "Invalid " (": \"" ++ raw ++ "\". Must be a number >= 1.")
  rw [invalidPollIntervalMsg,
    show ("Invalid poll-interval-seconds: \"" : String) = "Invalid " ++ ("poll-interval-seconds" ++ ": \"") by decide]
  simp only [String.append_assoc]

theorem invalidMaxWaitMsg_names (raw : String) :
    containsStr (invalidMaxWaitMsg raw) "max-wait-seconds" := by
  apply containsStr_intro "Invalid " (": \"" ++ raw ++ "\". Must be a number >= 1.")
  rw [invalidMaxWaitMsg,
    show ("Invalid max-wait-seconds: \"" : String) = "Invalid " ++ ("max-wait-seconds" ++ ": \"") by decide]
  simp only [String.append_assoc]

theorem invalidPollIntervalMsg_ne_invalidConfirmationsMsg (a b : String) :
    invalidPollIntervalMsg a ≠ invalidConfirmationsMsg b := by
  intro h
  have h1 : ((invalidPollIntervalMsg a).data.drop 8).head? = some 'p' := rfl
  rw [h] at h1
  have h2 : ((invalidConfirmationsMsg b).data.drop 8).head? = some 'c' := rfl
  exact absurd (h1.symm.trans h2) (by decide)

theorem invalidMaxWaitMsg_ne_invalidConfirmationsMsg (a b : String) :
    invalidMaxWaitMsg a ≠ invalidConfirmationsMsg b := by
  intro h
  have h1 : ((invalidMaxWaitMsg a).data.drop 8).head? = some 'm' := rfl
  rw [h] at h1
  have h2 : ((invalidConfirmationsMsg b).data.drop 8).head? = some 'c' := rfl
  exact absurd (h1.symm.trans h2) (by decide)

theorem invalidMaxWaitMsg_ne_invalidPollIntervalMsg (a b : String) :
    invalidMaxWaitMsg a ≠ invalidPollIntervalMsg b := by
  intro h
  have h1 : ((invalidMaxWaitMsg a).data.drop 8).head? = some 'm' := rfl
  rw [h] at h1
  have h2 : ((invalidPollIntervalMsg b).data.drop 8).head? = some 'p' := rfl
  exact absurd (h1.symm.trans h2) (by decide)

/-- When all three numeric validations pass, the builder succeeds with
the request whose numeric fields are the (possibly defaulted) parsed
parameters. -/
theorem buildRequest_params_ok (toNumber : String → JsNum) (inp : Inputs) (env : Env)
    (hA : inp.apiUrl ≠ "") (hK : inp.apiKey ≠ "")
    (hG : githubIdStrOf inp env ≠ "")
    (hGf : (toNumber (githubIdStrOf inp env)).isFinite = true)
    (hB : branchOf inp env ≠ "")
    (hc : numOk (numParam toNumber inp.confirmations 1) = true)
    (hp : numOk (numParam toNumber inp.pollIntervalSeconds 5) = true)
    (hm : numOk (numParam toNumber inp.maxWaitSeconds 600) = true) :
    buildRequest toNumber inp env = .ok
      { githubId := toNumber (githubIdStrOf inp env), branch := branchOf inp env,
        confirmations := (numParam toNumber inp.confirmations 1).toQ,
        pollIntervalSeconds := (numParam toNumber inp.pollIntervalSeconds 5).toQ,
        maxWaitSeconds := (numParam toNumber inp.maxWaitSeconds 600).toQ,
        apiUrlNormalized := normalizeUrlNoTrailingSlash inp.apiUrl,
        statusApiUrl :=
          if inp.statusApiUrl ≠ "" ∧ 0 < (jsTrim inp.statusApiUrl).length
          then jsTrim inp.statusApiUrl
          else normalizeUrlNoTrailingSlash inp.apiUrl ++ "/status",
        apiKey := inp.apiKey } := by
  simp [buildRequest, hA, hK, hG, hGf, hB, hc, hp, hm]

theorem buildRequest_conf_err (toNumber : String → JsNum) (inp : Inputs) (env : Env)
    (hA : inp.apiUrl ≠ "") (hK : inp.apiKey ≠ "")
    (hG : githubIdStrOf inp env ≠ "")
    (hGf : (toNumber (githubIdStrOf inp env)).isFinite = true)
    (hB : branchOf inp env ≠ "")
    (hc : numOk (numParam toNumber inp.confirmations 1) = false) :
    buildRequest toNumber inp env = .error (invalidConfirmationsMsg inp.confirmations) := by
  simp [buildRequest, hA, hK, hG, hGf, hB, hc]

theorem buildRequest_poll_err (toNumber : String → JsNum) (inp : Inputs) (env : Env)
    (hA : inp.apiUrl ≠ "") (hK : inp.apiKey ≠ "")
    (hG : githubIdStrOf inp env ≠ "")
    (hGf : (toNumber (githubIdStrOf inp env)).isFinite = true)
    (hB : branchOf inp env ≠ "")
    (hc : numOk (numParam toNumber inp.confirmations 1) = true)
    (hp : numOk (numParam toNumber inp.pollIntervalSeconds 5) = false) :
    buildRequest toNumber inp env = .error (invalidPollIntervalMsg inp.pollIntervalSeconds) := by
  simp [buildRequest, hA, hK, hG, hGf, hB, hc, hp]

theorem buildRequest_max_err (toNumber : String → JsNum) (inp : Inputs) (env : Env)
    (hA : inp.apiUrl ≠ "") (hK : inp.apiKey ≠ "")
    (hG : githubIdStrOf inp env ≠ "")
    (hGf : (toNumber (githubIdStrOf inp env)).isFinite = true)
    (hB : branchOf inp env ≠ "")
    (hc : numOk (numParam toNumber inp.confirmations 1) = true)
    (hp : numOk (numParam toNumber inp.pollIntervalSeconds 5) = true)
    (hm : numOk (numParam toNumber inp.maxWaitSeconds 600) = false) :
    buildRequest toNumber inp env = .error (invalidMaxWaitMsg inp.maxWaitSeconds) := by
  simp [buildRequest, hA, hK, hG, hGf, hB, hc, hp, hm]

/-- C9: each of confirmations, poll-interval-seconds and
max-wait-seconds is optional with defaults 1, 5 and 600 respectively:
independently of the other inputs, a blank parameter passes its
validation, is never the parameter named in a failure, and defaults in
every successfully built request; whenever all three are valid or
absent the builder succeeds; a supplied value must parse to a finite
number at least 1, otherwise the builder fails with the validation
message naming that specific parameter (the first offending one), and a
builder failure produces an empty event trace — no network call is
ever made. -/
theorem claim_C9_numeric_params (toNumber : String → JsNum) (inp : Inputs) (env : Env)
    (hA : inp.apiUrl ≠ "") (hK : inp.apiKey ≠ "")
    (hG : githubIdStrOf inp env ≠ "")
    (hGf : (toNumber (githubIdStrOf inp env)).isFinite = true)
    (hB : branchOf inp env ≠ "") :
    (∀ n : JsNum, numOk n = true ↔ ∃ q : ℚ, n = .finite q ∧ 1 ≤ q) ∧
    (∀ req, buildRequest toNumber inp env = .ok req →
      req.confirmations = (numParam toNumber inp.confirmations 1).toQ ∧
      req.pollIntervalSeconds = (numParam toNumber inp.pollIntervalSeconds 5).toQ ∧
      req.maxWaitSeconds = (numParam toNumber inp.maxWaitSeconds 600).toQ ∧
      (jsTrim inp.confirmations = "" → req.confirmations = 1) ∧
      (jsTrim inp.pollIntervalSeconds = "" → req.pollIntervalSeconds = 5) ∧
      (jsTrim inp.maxWaitSeconds = "" → req.maxWaitSeconds = 600)) ∧
    (jsTrim inp.confirmations = "" →
      numOk (numParam toNumber inp.confirmations 1) = true ∧
      buildRequest toNumber inp env ≠ .error (invalidConfirmationsMsg inp.confirmations)) ∧
    (jsTrim inp.pollIntervalSeconds = "" →
      numOk (numParam toNumber inp.pollIntervalSeconds 5) = true ∧
      buildRequest toNumber inp env ≠ .error (invalidPollIntervalMsg inp.pollIntervalSeconds)) ∧
    (jsTrim inp.maxWaitSeconds = "" →
      numOk (numParam toNumber inp.maxWaitSeconds 600) = true ∧
      buildRequest toNumber inp env ≠ .error (invalidMaxWaitMsg inp.maxWaitSeconds)) ∧
    (numOk (numParam toNumber inp.confirmations 1) = true →
      numOk (numParam toNumber inp.pollIntervalSeconds 5) = true →
      numOk (numParam toNumber inp.maxWaitSeconds 600) = true →
      ∃ req, buildRequest toNumber inp env = .ok req) ∧
    (numOk (numParam toNumber inp.confirmations 1) = false →
      buildRequest toNumber inp env = .error (invalidConfirmationsMsg inp.confirmations) ∧
      containsStr (invalidConfirmationsMsg inp.confirmations) "confirmations") ∧
    (numOk (numParam toNumber inp.confirmations 1) = true →
      numOk (numParam toNumber inp.pollIntervalSeconds 5) = false →
      buildRequest toNumber inp env = .error (invalidPollIntervalMsg inp.pollIntervalSeconds) ∧
      containsStr (invalidPollIntervalMsg inp.pollIntervalSeconds) "poll-interval-seconds") ∧
    (numOk (numParam toNumber inp.confirmations 1) = true →
      numOk (numParam toNumber inp.pollIntervalSeconds 5) = true →
      numOk (numParam toNumber inp.maxWaitSeconds 600) = false →
      buildRequest toNumber inp env = .error (invalidMaxWaitMsg inp.maxWaitSeconds) ∧
      containsStr (invalidMaxWaitMsg inp.maxWaitSeconds) "max-wait-seconds") ∧
    (∀ (w : World) (fuel : Nat) (msg : String),
      buildRequest toNumber inp env = .error msg →
      run toNumber inp env w fuel = ([], some (.failed msg))) := by
  refine ⟨numOk_iff, ?_, ?_, ?_, ?_, ?_, ?_, ?_, ?_, ?_⟩
  · intro req hreq
    obtain ⟨-, -, -, -, -, hcq, hpq, hmq, -, -, -, -⟩ :=
      buildRequest_ok_inv toNumber inp env req hreq
    refine ⟨hcq, hpq, hmq, ?_, ?_, ?_⟩
    · intro hb
      rw [hcq, numParam_blank toNumber inp.confirmations 1 hb]
      rfl
    · intro hb
      rw [hpq, numParam_blank toNumber inp.pollIntervalSeconds 5 hb]
      rfl
    · intro hb
      rw [hmq, numParam_blank toNumber inp.maxWaitSeconds 600 hb]
      rfl
  · intro hb
    have hc : numOk (numParam toNumber inp.confirmations 1) = true := by
      rw [numParam_blank toNumber inp.confirmations 1 hb]
      decide
    refine ⟨hc, ?_⟩
    intro h
    cases hp : numOk (numParam toNumber inp.pollIntervalSeconds 5) with
    | false =>
      rw [buildRequest_poll_err toNumber inp env hA hK hG hGf hB hc hp] at h
      exact invalidPollIntervalMsg_ne_invalidConfirmationsMsg _ _ (Except.error.inj h)
    | true =>
      cases hm : numOk (numParam toNumber inp.maxWaitSeconds 600) with
      | false =>
        rw [buildRequest_max_err toNumber inp env hA hK hG hGf hB hc hp hm] at h
        exact invalidMaxWaitMsg_ne_invalidConfirmationsMsg _ _ (Except.error.inj h)
      | true =>
        rw [buildRequest_params_ok toNumber inp env hA hK hG hGf hB hc hp hm] at h
        exact Except.noConfusion h
  · intro hb
    have hp : numOk (numParam toNumber inp.pollIntervalSeconds 5) = true := by
      rw [numParam_blank toNumber inp.pollIntervalSeconds 5 hb]
      decide
    refine ⟨hp, ?_⟩
    intro h
    cases hc : numOk (numParam toNumber inp.confirmations 1) with
    | false =>
      rw [buildRequest_conf_err toNumber inp env hA hK hG hGf hB hc] at h
      exact invalidPollIntervalMsg_ne_invalidConfirmationsMsg _ _ (Except.error.inj h).symm
    | true =>
      cases hm : numOk (numParam toNumber inp.maxWaitSeconds 600) with
      | false =>
        rw [buildRequest_max_err toNumber inp env hA hK hG hGf hB hc hp hm] at h
        exact invalidMaxWaitMsg_ne_invalidPollIntervalMsg _ _ (Except.error.inj h)
      | true =>
        rw [buildRequest_params_ok toNumber inp env hA hK hG hGf hB hc hp hm] at h
        exact Except.noConfusion h
  · intro hb
    have hm : numOk (numParam toNumber inp.maxWaitSeconds 600) = true := by
      rw [numParam_blank toNumber inp.maxWaitSeconds 600 hb]
      decide
    refine ⟨hm, ?_⟩
    intro h
    cases hc : numOk (numParam toNumber inp.confirmations 1) with
    | false =>
      rw [buildRequest_conf_err toNumber inp env hA hK hG hGf hB hc] at h
      exact invalidMaxWaitMsg_ne_invalidConfirmationsMsg _ _ (Except.error.inj h).symm
    | true =>
      cases hp : numOk (numParam toNumber inp.pollIntervalSeconds 5) with
      | false =>
        rw [buildRequest_poll_err toNumber inp env hA hK hG hGf hB hc hp] at h
        exact invalidMaxWaitMsg_ne_invalidPollIntervalMsg _ _ (Except.error.inj h).symm
      | true =>
        rw [buildRequest_params_ok toNumber inp env hA hK hG hGf hB hc hp hm] at h
        exact Except.noConfusion h
  · intro hc hp hm
    exact ⟨_, buildRequest_params_ok toNumber inp env hA hK hG hGf hB hc hp hm⟩
  · intro hc
    exact ⟨buildRequest_conf_err toNumber inp env hA hK hG hGf hB hc,
      invalidConfirmationsMsg_names inp.confirmations⟩
  · intro hc hp
    exact ⟨buildRequest_poll_err toNumber inp env hA hK hG hGf hB hc hp,
      invalidPollIntervalMsg_names inp.pollIntervalSeconds⟩
  · intro hc hp hm
    exact ⟨buildRequest_max_err toNumber inp env hA hK hG hGf hB hc hp hm,
      invalidMaxWaitMsg_names inp.maxWaitSeconds⟩
  · intro w fuel msg hmsg
    exact run_of_build_error toNumber inp env w fuel msg hmsg

/-- inputs supplying a confirmations value below the lower bound, with
the other two numeric parameters left blank -/
def inpC9 : Inputs :=
  { apiUrl := "http://api", apiKey := "k", statusApiUrl := "",
    confirmations := "0", pollIntervalSeconds := "", maxWaitSeconds := "",
    githubId := "7", branch := "main" }

/-- C9 witness: the claim at a concrete input assignment whose
confirmations value parses to 0 while the other two parameters are
absent (and so pass validation with their defaults). -/
theorem claim_C9_witness :
    (∀ n : JsNum, numOk n = true ↔ ∃ q : ℚ, n = .finite q ∧ 1 ≤ q) ∧
    (∀ req, buildRequest toNumberDigits inpC9 envNone = .ok req →
      req.confirmations = (numParam toNumberDigits inpC9.confirmations 1).toQ ∧
      req.pollIntervalSeconds = (numParam toNumberDigits inpC9.pollIntervalSeconds 5).toQ ∧
      req.maxWaitSeconds = (numParam toNumberDigits inpC9.maxWaitSeconds 600).toQ ∧
      (jsTrim inpC9.confirmations = "" → req.confirmations = 1) ∧
      (jsTrim inpC9.pollIntervalSeconds = "" → req.pollIntervalSeconds = 5) ∧
      (jsTrim inpC9.maxWaitSeconds = "" → req.maxWaitSeconds = 600)) ∧
    (jsTrim inpC9.confirmations = "" →
      numOk (numParam toNumberDigits inpC9.confirmations 1) = true ∧
      buildRequest toNumberDigits inpC9 envNone ≠ .error (invalidConfirmationsMsg inpC9.confirmations)) ∧
    (jsTrim inpC9.pollIntervalSeconds = "" →
      numOk (numParam toNumberDigits inpC9.pollIntervalSeconds 5) = true ∧
      buildRequest toNumberDigits inpC9 envNone ≠ .error (invalidPollIntervalMsg inpC9.pollIntervalSeconds)) ∧
    (jsTrim inpC9.maxWaitSeconds = "" →
      numOk (numParam toNumberDigits inpC9.maxWaitSeconds 600) = true ∧
      buildRequest toNumberDigits inpC9 envNone ≠ .error (invalidMaxWaitMsg inpC9.maxWaitSeconds)) ∧
    (numOk (numParam toNumberDigits inpC9.confirmations 1) = true →
      numOk (numParam toNumberDigits inpC9.pollIntervalSeconds 5) = true →
      numOk (numParam toNumberDigits inpC9.maxWaitSeconds 600) = true →
      ∃ req, buildRequest toNumberDigits inpC9 envNone = .ok req) ∧
    (numOk (numParam toNumberDigits inpC9.confirmations 1) = false →
      buildRequest toNumberDigits inpC9 envNone = .error (invalidConfirmationsMsg inpC9.confirmations) ∧
      containsStr (invalidConfirmationsMsg inpC9.confirmations) "confirmations") ∧
    (numOk (numParam toNumberDigits inpC9.confirmations 1) = true →
      numOk (numParam toNumberDigits inpC9.pollIntervalSeconds 5) = false →
      buildRequest toNumberDigits inpC9 envNone = .error (invalidPollIntervalMsg inpC9.pollIntervalSeconds) ∧
      containsStr (invalidPollIntervalMsg inpC9.pollIntervalSeconds) "poll-interval-seconds") ∧
    (numOk (numParam toNumberDigits inpC9.confirmations 1) = true →
      numOk (numParam toNumberDigits inpC9.pollIntervalSeconds 5) = true →
      numOk (numParam toNumberDigits inpC9.maxWaitSeconds 600) = false →
      buildRequest toNumberDigits inpC9 envNone = .error (invalidMaxWaitMsg inpC9.maxWaitSeconds) ∧
      containsStr (invalidMaxWaitMsg inpC9.maxWaitSeconds) "max-wait-seconds") ∧
    (∀ (w : World) (fuel : Nat) (msg : String),
      buildRequest toNumberDigits inpC9 envNone = .error msg →
      run toNumberDigits inpC9 envNone w fuel = ([], some (.failed msg))) :=
  claim_C9_numeric_params toNumberDigits inpC9 envNone (by decide) (by decide)
    (by decide) (by decide) (by decide)

/-! C2: the confirmation deadline. -/

theorem timeoutMsg_contains_elapsed (elapsed : Nat) (tx : String) (txUrl : Option String) :
    containsStr (timeoutMsg elapsed tx txUrl) (toString elapsed) := by
  apply containsStr_intro "Timed out after "
    ("s while waiting for confirmation. tx_hash=" ++ tx ++
      (if strTruthy txUrl then " (" ++ jsOrEmpty txUrl ++ ")" else ""))
  simp [timeoutMsg, String.append_assoc]

theorem timeoutMsg_contains_tx (elapsed : Nat) (tx : String) (txUrl : Option String) :
    containsStr (timeoutMsg elapsed tx txUrl) tx := by
  apply containsStr_intro
    ("Timed out after " ++ toString elapsed ++ "s while waiting for confirmation. tx_hash=")
    (if strTruthy txUrl then " (" ++ jsOrEmpty txUrl ++ ")" else "")
  simp [timeoutMsg, String.append_assoc]

/-- C2: at any loop head where the elapsed seconds since submission have
reached or passed maxWaitSeconds and no terminal poll outcome has ended
the run earlier, the run fails with the timeout message — which carries
the elapsed time and the transaction identifier — and the remaining
trace is empty: no further poll (or any other event) happens, however
many attempts have already occurred. -/
theorem claim_C2_confirmation_timeout (req : SnapshotRequest) (txUrl : Option String)
    (txHash : String) (w : World) (fuel k : Nat) (tMs : ℚ)
    (hT : (elapsedSecondsOf tMs : ℚ) ≥ req.maxWaitSeconds) :
    pollLoop req txUrl txHash w (fuel + 1) k tMs =
      ([], some (.failed (timeoutMsg (elapsedSecondsOf tMs) txHash txUrl))) ∧
    containsStr (timeoutMsg (elapsedSecondsOf tMs) txHash txUrl)
      (toString (elapsedSecondsOf tMs)) ∧
    containsStr (timeoutMsg (elapsedSecondsOf tMs) txHash txUrl) txHash := by
  refine ⟨?_, timeoutMsg_contains_elapsed _ _ _, timeoutMsg_contains_tx _ _ _⟩
  simp [pollLoop, hT]

/-- a transaction-less placeholder request with a 5 second deadline -/
def reqT : SnapshotRequest :=
  { githubId := .finite 7, branch := "main", confirmations := 1,
    pollIntervalSeconds := 1, maxWaitSeconds := 5,
    apiUrlNormalized := "http://api", statusApiUrl := "http://api/status",
    apiKey := "k" }

/-- an HTTP 200 response that keeps reporting a pending status -/
def pendResp : HttpResp :=
  { ok := true, status := 200, statusText := "OK",
    text := "\x7b\"status\":\"pending\"\x7d", data := some { status := some "pending" } }

def pendWorld : World :=
  { submitResp := pendResp, pollResp := fun _ => pendResp, pollDurMs := fun _ => 0 }

theorem elapsedSecondsOf_5000 : elapsedSecondsOf 5000 = 5 := by
  unfold elapsedSecondsOf
  rw [show ((5000 : ℚ) / 1000) = ((5 : ℤ) : ℚ) by norm_num, Int.floor_intCast]
  rfl

/-- C2 witness: with maxWaitSeconds 5 and 5000 ms elapsed after three
completed attempts, the next loop head times out. -/
theorem claim_C2_witness :
    pollLoop reqT none "0xabc" pendWorld 1 3 5000 =
      ([], some (.failed (timeoutMsg (elapsedSecondsOf 5000) "0xabc" none))) ∧
    containsStr (timeoutMsg (elapsedSecondsOf 5000) "0xabc" none)
      (toString (elapsedSecondsOf 5000)) ∧
    containsStr (timeoutMsg (elapsedSecondsOf 5000) "0xabc" none) "0xabc" :=
  claim_C2_confirmation_timeout reqT none "0xabc" pendWorld 0 3 5000
    (by rw [elapsedSecondsOf_5000]; norm_num [reqT])

/-! C3: transient poll failures. -/

theorem pollHttpErrMsg_contains_attempt (attempt : Nat) (r : HttpResp) :
    containsStr (pollHttpErrMsg attempt r) (toString attempt) := by
  apply containsStr_intro "Status check attempt #"
    (" got HTTP " ++ toString r.status ++ " " ++ r.statusText ++
      (if strTruthy (pollDetail r) then " - " ++ jsOrEmpty (pollDetail r)
       else if r.text ≠ "" then " - " ++ r.text else ""))
  simp [pollHttpErrMsg, String.append_assoc]

theorem pollHttpErrMsg_contains_status (attempt : Nat) (r : HttpResp) :
    containsStr (pollHttpErrMsg attempt r) (toString r.status) := by
  apply containsStr_intro ("Status check attempt #" ++ toString attempt ++ " got HTTP ")
    (" " ++ r.statusText ++
      (if strTruthy (pollDetail r) then " - " ++ jsOrEmpty (pollDetail r)
       else if r.text ≠ "" then " - " ++ r.text else ""))
  simp [pollHttpErrMsg, String.append_assoc]

theorem pollEmptyMsg_contains_attempt (attempt : Nat) :
    containsStr (pollEmptyMsg attempt) (toString attempt) := by
  apply containsStr_intro "Status check attempt #"
    " returned non-JSON/empty body. Waiting..."
  simp [pollEmptyMsg, String.append_assoc]

/-- C3: a non-success poll response, or a success response with an
undecodable or empty body, never ends the run on that attempt: the
engine posts the poll, logs a line carrying the attempt number (and the
HTTP status in the non-success case), sleeps for pollIntervalSeconds,
and the run continues with the next loop iteration, whose events and
outcome are exactly those of the remaining loop. -/
theorem claim_C3_transient_poll_errors (req : SnapshotRequest) (txUrl : Option String)
    (txHash : String) (w : World) (fuel k : Nat) (tMs : ℚ)
    (hT : (elapsedSecondsOf tMs : ℚ) < req.maxWaitSeconds) :
    ((w.pollResp k).ok = false →
      pollLoop req txUrl txHash w (fuel + 1) k tMs =
        (Event.post req.statusApiUrl ::
          Event.info (pollHttpErrMsg (k + 1) (w.pollResp k)) ::
          Event.sleepMs (req.pollIntervalSeconds * 1000) ::
          (pollLoop req txUrl txHash w fuel (k + 1)
            (tMs + w.pollDurMs k + req.pollIntervalSeconds * 1000)).1,
         (pollLoop req txUrl txHash w fuel (k + 1)
            (tMs + w.pollDurMs k + req.pollIntervalSeconds * 1000)).2) ∧
      containsStr (pollHttpErrMsg (k + 1) (w.pollResp k)) (toString (k + 1)) ∧
      containsStr (pollHttpErrMsg (k + 1) (w.pollResp k)) (toString (w.pollResp k).status)) ∧
    ((w.pollResp k).ok = true → (w.pollResp k).data = none →
      pollLoop req txUrl txHash w (fuel + 1) k tMs =
        (Event.post req.statusApiUrl ::
          Event.info (pollEmptyMsg (k + 1)) ::
          Event.sleepMs (req.pollIntervalSeconds * 1000) ::
          (pollLoop req txUrl txHash w fuel (k + 1)
            (tMs + w.pollDurMs k + req.pollIntervalSeconds * 1000)).1,
         (pollLoop req txUrl txHash w fuel (k + 1)
            (tMs + w.pollDurMs k + req.pollIntervalSeconds * 1000)).2) ∧
      containsStr (pollEmptyMsg (k + 1)) (toString (k + 1))) := by
  have hT' : ¬((elapsedSecondsOf tMs : ℚ) ≥ req.maxWaitSeconds) := not_le.mpr hT
  constructor
  · intro hok
    refine ⟨?_, pollHttpErrMsg_contains_attempt _ _, pollHttpErrMsg_contains_status _ _⟩
    simp [pollLoop, hT', hok]
  · intro hok hd
    refine ⟨?_, pollEmptyMsg_contains_attempt _⟩
    simp [pollLoop, hT', hok, hd]

theorem elapsedSecondsOf_zero : elapsedSecondsOf 0 = 0 := by
  simp [elapsedSecondsOf]

/-- C3 witness: the claim at the first attempt against a status endpoint
answering HTTP 422. -/
theorem claim_C3_witness :
    ((rejectWorld.pollResp 0).ok = false →
      pollLoop reqCex none "0xabc" rejectWorld 1 0 0 =
        (Event.post reqCex.statusApiUrl ::
          Event.info (pollHttpErrMsg (0 + 1) (rejectWorld.pollResp 0)) ::
          Event.sleepMs (reqCex.pollIntervalSeconds * 1000) ::
          (pollLoop reqCex none "0xabc" rejectWorld 0 (0 + 1)
            (0 + rejectWorld.pollDurMs 0 + reqCex.pollIntervalSeconds * 1000)).1,
         (pollLoop reqCex none "0xabc" rejectWorld 0 (0 + 1)
            (0 + rejectWorld.pollDurMs 0 + reqCex.pollIntervalSeconds * 1000)).2) ∧
      containsStr (pollHttpErrMsg (0 + 1) (rejectWorld.pollResp 0)) (toString (0 + 1)) ∧
      containsStr (pollHttpErrMsg (0 + 1) (rejectWorld.pollResp 0))
        (toString (rejectWorld.pollResp 0).status)) ∧
    ((rejectWorld.pollResp 0).ok = true → (rejectWorld.pollResp 0).data = none →
      pollLoop reqCex none "0xabc" rejectWorld 1 0 0 =
        (Event.post reqCex.statusApiUrl ::
          Event.info (pollEmptyMsg (0 + 1)) ::
          Event.sleepMs (reqCex.pollIntervalSeconds * 1000) ::
          (pollLoop reqCex none "0xabc" rejectWorld 0 (0 + 1)
            (0 + rejectWorld.pollDurMs 0 + reqCex.pollIntervalSeconds * 1000)).1,
         (pollLoop reqCex none "0xabc" rejectWorld 0 (0 + 1)
            (0 + rejectWorld.pollDurMs 0 + reqCex.pollIntervalSeconds * 1000)).2) ∧
      containsStr (pollEmptyMsg (0 + 1)) (toString (0 + 1))) :=
  claim_C3_transient_poll_errors reqCex none "0xabc" rejectWorld 0 0 0
    (by rw [elapsedSecondsOf_zero]; norm_num [reqCex])

/-! C1: status dispatch on a decoded poll body. -/

theorem txFailedMsg_contains_tx (d : SnapshotResponse) (tx : String) :
    containsStr (txFailedMsg d tx) tx := by
  apply containsStr_intro
    ("Code Quill transaction failed: " ++
      jsOrDefault d.message d.error "Transaction failed on-chain." ++ " tx_hash=") ""
  simp [txFailedMsg, String.append_assoc, String.append_empty]

theorem txFailedMsg_contains_message (d : SnapshotResponse) (tx m : String)
    (hm : d.message = some m) : containsStr (txFailedMsg d tx) m := by
  by_cases hne : m = ""
  · rw [hne]
    exact containsStr_empty _
  · have hj : jsOrDefault d.message d.error "Transaction failed on-chain." = m := by
      simp [jsOrDefault, jsOrOpt, hm, hne]
    apply containsStr_intro "Code Quill transaction failed: " (" tx_hash=" ++ tx)
    simp [txFailedMsg, hj, String.append_assoc]

theorem txFailedMsg_contains_error (d : SnapshotResponse) (tx e : String)
    (hm : d.message = none) (he : d.error = some e) :
    containsStr (txFailedMsg d tx) e := by
  by_cases hne : e = ""
  · rw [hne]
    exact containsStr_empty _
  · have hj : jsOrDefault d.message d.error "Transaction failed on-chain." = e := by
      simp [jsOrDefault, jsOrOpt, hm, he, hne]
    apply containsStr_intro "Code Quill transaction failed: " (" tx_hash=" ++ tx)
    simp [txFailedMsg, hj, String.append_assoc]

theorem txFailedMsg_contains_generic (d : SnapshotResponse) (tx : String)
    (hm : d.message = none) (he : d.error = none) :
    containsStr (txFailedMsg d tx) "Transaction failed on-chain." := by
  have hj : jsOrDefault d.message d.error "Transaction failed on-chain." =
      "Transaction failed on-chain." := by
    simp [jsOrDefault, jsOrOpt, hm, he]
  apply containsStr_intro "Code Quill transaction failed: " (" tx_hash=" ++ tx)
  simp only [txFailedMsg, hj, String.append_assoc]

/-- C1: the decoded status drives the transition case-insensitively
(the scrutinee is the lowercased status string): a status lowercasing to
the failed literal ends the run as a fatal failure whose message uses
the body message field, else its error field, else the generic reason,
and carries the transaction identifier; any status that lowercases to
neither the confirmed nor the failed literal — including an absent one —
leaves the run pending: the loop logs, sleeps and continues. -/
theorem claim_C1_poll_status_dispatch (req : SnapshotRequest) (txUrl : Option String)
    (txHash : String) (w : World) (fuel k : Nat) (tMs : ℚ) (d : SnapshotResponse)
    (hT : (elapsedSecondsOf tMs : ℚ) < req.maxWaitSeconds)
    (hok : (w.pollResp k).ok = true)
    (hd : (w.pollResp k).data = some d) :
    (jsToLower (jsOrEmpty d.status) = "failed" →
      pollLoop req txUrl txHash w (fuel + 1) k tMs =
        ([Event.post req.statusApiUrl], some (.failed (txFailedMsg d txHash))) ∧
      containsStr (txFailedMsg d txHash) txHash ∧
      (∀ m, d.message = some m → containsStr (txFailedMsg d txHash) m) ∧
      (d.message = none → ∀ e, d.error = some e → containsStr (txFailedMsg d txHash) e) ∧
      (d.message = none → d.error = none →
        containsStr (txFailedMsg d txHash) "Transaction failed on-chain.")) ∧
    (jsToLower (jsOrEmpty d.status) ≠ "confirmed" →
      jsToLower (jsOrEmpty d.status) ≠ "failed" →
      pollLoop req txUrl txHash w (fuel + 1) k tMs =
        (Event.post req.statusApiUrl ::
          Event.info (pendingMsg (elapsedSecondsOf tMs) (k + 1) txHash) ::
          Event.sleepMs (req.pollIntervalSeconds * 1000) ::
          (pollLoop req txUrl txHash w fuel (k + 1)
            (tMs + w.pollDurMs k + req.pollIntervalSeconds * 1000)).1,
         (pollLoop req txUrl txHash w fuel (k + 1)
            (tMs + w.pollDurMs k + req.pollIntervalSeconds * 1000)).2)) := by
  have hT' : ¬((elapsedSecondsOf tMs : ℚ) ≥ req.maxWaitSeconds) := not_le.mpr hT
  constructor
  · intro hs
    have hs2 : jsToLower (jsOrEmpty d.status) ≠ "confirmed" := by
      rw [hs]
      decide
    refine ⟨?_, txFailedMsg_contains_tx d txHash, ?_, ?_, ?_⟩
    · simp [pollLoop, hT', hok, hd, hs, hs2]
    · intro m hm
      exact txFailedMsg_contains_message d txHash m hm
    · intro hm e he
      exact txFailedMsg_contains_error d txHash e hm he
    · intro hm he
      exact txFailedMsg_contains_generic d txHash hm he
  · intro hs1 hs2
    simp [pollLoop, hT', hok, hd, hs1, hs2]

/-- a decoded poll body reporting a mixed-case failed status with a
message field -/
def dFail : SnapshotResponse := { status := some "FaIlEd", message := some "boom" }

def failedResp : HttpResp :=
  { ok := true, status := 200, statusText := "OK",
    text := "\x7b\"status\":\"FaIlEd\",\"message\":\"boom\"\x7d", data := some dFail }

def failedWorld : World :=
  { submitResp := failedResp, pollResp := fun _ => failedResp, pollDurMs := fun _ => 0 }

/-- C1 witness: the dispatch theorem at a mixed-case failed status. -/
theorem claim_C1_witness :
    (jsToLower (jsOrEmpty dFail.status) = "failed" →
      pollLoop reqCex none "0xabc" failedWorld 1 0 0 =
        ([Event.post reqCex.statusApiUrl], some (.failed (txFailedMsg dFail "0xabc"))) ∧
      containsStr (txFailedMsg dFail "0xabc") "0xabc" ∧
      (∀ m, dFail.message = some m → containsStr (txFailedMsg dFail "0xabc") m) ∧
      (dFail.message = none → ∀ e, dFail.error = some e →
        containsStr (txFailedMsg dFail "0xabc") e) ∧
      (dFail.message = none → dFail.error = none →
        containsStr (txFailedMsg dFail "0xabc") "Transaction failed on-chain.")) ∧
    (jsToLower (jsOrEmpty dFail.status) ≠ "confirmed" →
      jsToLower (jsOrEmpty dFail.status) ≠ "failed" →
      pollLoop reqCex none "0xabc" failedWorld 1 0 0 =
        (Event.post reqCex.statusApiUrl ::
          Event.info (pendingMsg (elapsedSecondsOf 0) (0 + 1) "0xabc") ::
          Event.sleepMs (reqCex.pollIntervalSeconds * 1000) ::
          (pollLoop reqCex none "0xabc" failedWorld 0 (0 + 1)
            (0 + failedWorld.pollDurMs 0 + reqCex.pollIntervalSeconds * 1000)).1,
         (pollLoop reqCex none "0xabc" failedWorld 0 (0 + 1)
            (0 + failedWorld.pollDurMs 0 + reqCex.pollIntervalSeconds * 1000)).2)) :=
  claim_C1_poll_status_dispatch reqCex none "0xabc" failedWorld 0 0 0 dFail
    (by rw [elapsedSecondsOf_zero]; norm_num [reqCex]) rfl rfl

/-! C7: confirmed status. -/

/-- C7: a decoded poll body whose status lowercases to the confirmed
literal ends the run as a success, and the outcome carries exactly the
body confirmations field whenever that field is numeric. -/
theorem claim_C7_confirmed_success (req : SnapshotRequest) (txUrl : Option String)
    (txHash : String) (w : World) (fuel k : Nat) (tMs : ℚ) (d : SnapshotResponse)
    (hT : (elapsedSecondsOf tMs : ℚ) < req.maxWaitSeconds)
    (hok : (w.pollResp k).ok = true)
    (hd : (w.pollResp k).data = some d)
    (hs : jsToLower (jsOrEmpty d.status) = "confirmed") :
    pollLoop req txUrl txHash w (fuel + 1) k tMs =
      ([Event.post req.statusApiUrl, Event.info (confirmedMsg d.confirmations)],
       some (.confirmed d.confirmations)) ∧
    (∀ q : ℚ, d.confirmations = some q →
      (pollLoop req txUrl txHash w (fuel + 1) k tMs).2 = some (.confirmed (some q))) := by
  have hT' : ¬((elapsedSecondsOf tMs : ℚ) ≥ req.maxWaitSeconds) := not_le.mpr hT
  have h1 : pollLoop req txUrl txHash w (fuel + 1) k tMs =
      ([Event.post req.statusApiUrl, Event.info (confirmedMsg d.confirmations)],
       some (.confirmed d.confirmations)) := by
    simp [pollLoop, hT', hok, hd, hs]
  refine ⟨h1, ?_⟩
  intro q hq
  rw [h1, hq]

/-- a decoded poll body reporting an upper-case confirmed status with
3 confirmations -/
def dConf : SnapshotResponse := { status := some "CONFIRMED", confirmations := some 3 }

def confirmedResp : HttpResp :=
  { ok := true, status := 200, statusText := "OK",
    text := "\x7b\"status\":\"CONFIRMED\",\"confirmations\":3\x7d", data := some dConf }

def confirmedWorld : World :=
  { submitResp := confirmedResp, pollResp := fun _ => confirmedResp,
    pollDurMs := fun _ => 0 }

/-- C7 witness: the claim at an upper-case confirmed response carrying
3 confirmations. -/
theorem claim_C7_witness :
    pollLoop reqCex none "0xabc" confirmedWorld 1 0 0 =
      ([Event.post reqCex.statusApiUrl, Event.info (confirmedMsg dConf.confirmations)],
       some (.confirmed dConf.confirmations)) ∧
    (∀ q : ℚ, dConf.confirmations = some q →
      (pollLoop reqCex none "0xabc" confirmedWorld 1 0 0).2 = some (.confirmed (some q))) :=
  claim_C7_confirmed_success reqCex none "0xabc" confirmedWorld 0 0 0 dConf
    (by rw [elapsedSecondsOf_zero]; norm_num [reqCex]) rfl rfl (by decide)

/-! C10: a validated request always polls before it can time out. -/

/-- C10: for every request produced by the validator the deadline is at
least 1 second, the elapsed time measured at the first loop head is 0,
so the deadline check cannot fire before the first poll: whenever the
loop can take a step from its initial state, its first event is the
status poll POST — a timeout with zero attempts is impossible. -/
theorem claim_C10_first_poll_precedes_timeout (toNumber : String → JsNum)
    (inp : Inputs) (env : Env) (req : SnapshotRequest) (w : World)
    (txUrl : Option String) (txHash : String) (fuel : Nat)
    (hb : buildRequest toNumber inp env = .ok req) :
    elapsedSecondsOf 0 = 0 ∧
    (1 : ℚ) ≤ req.maxWaitSeconds ∧
    ∃ rest out, pollLoop req txUrl txHash w (fuel + 1) 0 0 =
      (Event.post req.statusApiUrl :: rest, out) := by
  obtain ⟨-, -, -, -, hm, -, -, hmq, -, -, -, -⟩ :=
    buildRequest_ok_inv toNumber inp env req hb
  have h1 : (1 : ℚ) ≤ req.maxWaitSeconds := by
    rw [hmq]
    exact numOk_one_le_toQ hm
  have hT' : ¬((elapsedSecondsOf (0 : ℚ) : ℚ) ≥ req.maxWaitSeconds) := by
    rw [elapsedSecondsOf_zero]
    push_cast
    linarith
  refine ⟨elapsedSecondsOf_zero, h1, ?_⟩
  cases hok : (w.pollResp 0).ok with
  | false =>
    refine ⟨Event.info (pollHttpErrMsg 1 (w.pollResp 0)) ::
      Event.sleepMs (req.pollIntervalSeconds * 1000) ::
      (pollLoop req txUrl txHash w fuel 1 (w.pollDurMs 0 + req.pollIntervalSeconds * 1000)).1,
      (pollLoop req txUrl txHash w fuel 1 (w.pollDurMs 0 + req.pollIntervalSeconds * 1000)).2, ?_⟩
    simp [pollLoop, hT', hok]
  | true =>
    cases hd : (w.pollResp 0).data with
    | none =>
      refine ⟨Event.info (pollEmptyMsg 1) ::
        Event.sleepMs (req.pollIntervalSeconds * 1000) ::
        (pollLoop req txUrl txHash w fuel 1 (w.pollDurMs 0 + req.pollIntervalSeconds * 1000)).1,
        (pollLoop req txUrl txHash w fuel 1 (w.pollDurMs 0 + req.pollIntervalSeconds * 1000)).2, ?_⟩
      simp [pollLoop, hT', hok, hd]
    | some d =>
      by_cases hs : jsToLower (jsOrEmpty d.status) = "confirmed"
      · refine ⟨[Event.info (confirmedMsg d.confirmations)],
          some (.confirmed d.confirmations), ?_⟩
        simp [pollLoop, hT', hok, hd, hs]
      · by_cases hf : jsToLower (jsOrEmpty d.status) = "failed"
        · refine ⟨[], some (.failed (txFailedMsg d txHash)), ?_⟩
          simp [pollLoop, hT', hok, hd, hs, hf]
        · refine ⟨Event.info (pendingMsg (elapsedSecondsOf 0) 1 txHash) ::
            Event.sleepMs (req.pollIntervalSeconds * 1000) ::
            (pollLoop req txUrl txHash w fuel 1 (w.pollDurMs 0 + req.pollIntervalSeconds * 1000)).1,
            (pollLoop req txUrl txHash w fuel 1 (w.pollDurMs 0 + req.pollIntervalSeconds * 1000)).2, ?_⟩
          simp [pollLoop, hT', hok, hd, hs, hf]

/-- C10 witness: the claim for the concrete validated fixture request. -/
theorem claim_C10_witness :
    elapsedSecondsOf 0 = 0 ∧
    (1 : ℚ) ≤ reqCex.maxWaitSeconds ∧
    ∃ rest out, pollLoop reqCex none "0xabc" pendWorld 1 0 0 =
      (Event.post reqCex.statusApiUrl :: rest, out) :=
  claim_C10_first_poll_precedes_timeout toNumberDigits inpCex envNone reqCex
    pendWorld none "0xabc" 0 buildRequest_inpCex

end CodeQuill
